import Mathlib

/-!
Shallow embedding of the message-ingestion and content-resolution core of a
content-addressed messaging node (files aleph/storage.py, aleph/network.py,
aleph/jobs.py), together with theorems settling the spec claims.

Bytes are modelled as List Nat, hashes as String.  External adapters that the
core calls through narrow interfaces (the local filestore, the p2p streamer and
http fallback, the IPFS client, the sha256 routine, chain verifiers, the
incoming handler and the chaindata extractor) are fields of explicit
environment records, so each embedded operation is a pure function of its
environment, its state and its arguments.  Fallible code returns Except.
-/

/-- Modelled from the spec: ItemType (aleph/types.py is not part of the source
slice), one of Inline, Storage, Ipfs.  The storage module refers to the three
constructors; the length-based classifier ItemType.from_hash is kept abstract
as an environment field since no claim depends on its internals. -/
inductive ItemType where
  | Inline
  | Storage
  | IPFS
deriving DecidableEq, Repr

/-- ContentSource, aleph/storage.py lines 27-31. -/
inductive ContentSource where
  | DB
  | P2P
  | IPFS
  | INLINE
deriving DecidableEq, Repr

/-- RawContent, aleph/storage.py lines 34-45 (StoredContent plus value). -/
structure RawContent where
  hash : String
  source : Option ContentSource
  value : List Nat
deriving DecidableEq, Repr

/-- Error taxonomy raised by the storage module: InvalidContent and
ContentCurrentlyUnavailable (aleph/exceptions.py), ValueError for an invalid
engine (storage.py line 151), and a store-write failure escaping set_value. -/
inductive StorageError where
  | invalidContent
  | contentCurrentlyUnavailable
  | invalidEngine
  | storeWriteError
deriving DecidableEq, Repr

/-- The local byte store (aleph/services/filestore) as an association list. -/
def Store := List (String × List Nat)

/-- Contract of get_value: get(hash) returns the stored bytes or none. -/
def get_value (store : Store) (h : String) : Option (List Nat) :=
  match store with
  | [] => none
  | (k, w) :: rest => if k = h then some w else get_value rest h

/-- Contract of set_value: overwrite-or-insert under the key. -/
def set_value (store : Store) (h : String) (v : List Nat) : Store :=
  match store with
  | [] => [(h, v)]
  | (k, w) :: rest =>
      if k = h then (h, v) :: rest else (k, w) :: set_value rest h v

/-- Environment of the storage module: configuration snapshot and external
adapters.  ipfsAddBytes returns none to model an asyncio.TimeoutError inside
compute_content_hash_ipfs; setValueOk = false models set_value raising. -/
structure StorageEnv where
  p2pClients : List String
  streamer : String → Option (List Nat)
  httpFetch : String → Option (List Nat)
  ipfsGet : String → Option (List Nat)
  ipfsEnabled : Bool
  ipfsAddBytes : List Nat → Nat → Option String
  sha256bytes : List Nat → String
  setValueOk : Bool

/-- compute_content_hash_ipfs, storage.py lines 109-130: cid version 0, or 1
when the expected hash has length at least 58; none on timeout. -/
def compute_content_hash_ipfs (env : StorageEnv) (content : List Nat)
    (expected_hash : String) : Option String :=
  env.ipfsAddBytes content (if 58 ≤ expected_hash.length then 1 else 0)

/-- compute_content_hash_sha256, storage.py lines 133-134. -/
def compute_content_hash_sha256 (env : StorageEnv) (content : List Nat)
    (_expected_hash : String) : Option String :=
  some (env.sha256bytes content)

/-- verify_content_hash, storage.py lines 137-163: pick the hasher by engine
(IPFS only when the subsystem is enabled, otherwise Storage, otherwise
ValueError); a none computation is ContentCurrentlyUnavailable; a mismatch is
InvalidContent. -/
def verify_content_hash (env : StorageEnv) (content : List Nat)
    (engine : ItemType) (expected_hash : String) : Except StorageError Unit :=
  let computed : Except StorageError (Option String) :=
    if engine == ItemType.IPFS && env.ipfsEnabled then
      Except.ok (compute_content_hash_ipfs env content expected_hash)
    else if engine == ItemType.Storage then
      Except.ok (compute_content_hash_sha256 env content expected_hash)
    else Except.error StorageError.invalidEngine
  match computed with
  | Except.error e => Except.error e
  | Except.ok none => Except.error StorageError.contentCurrentlyUnavailable
  | Except.ok (some h) =>
      if h ≠ expected_hash then Except.error StorageError.invalidContent
      else Except.ok ()

/-- fetch_content_from_network, storage.py lines 90-106: ask the streamer when
the protocol client is enabled, fall back to http when the first answer is
none, and verify any bytes obtained before returning them. -/
def fetch_content_from_network (env : StorageEnv) (content_hash : String)
    (engine : ItemType) : Except StorageError (Option (List Nat)) :=
  let c0 : Option (List Nat) :=
    if env.p2pClients.contains "protocol" then env.streamer content_hash
    else none
  let c1 : Option (List Nat) :=
    if c0 == none && env.p2pClients.contains "http" then
      env.httpFetch content_hash
    else c0
  match c1 with
  | none => Except.ok none
  | some c =>
      match verify_content_hash env c engine content_hash with
      | Except.error e => Except.error e
      | Except.ok _ => Except.ok (some c)

/-- get_hash_content, storage.py lines 166-206: DB, then network (source is
set to P2P whenever the network is consulted), then IPFS when enabled,
requested and the engine is IPFS; raise ContentCurrentlyUnavailable when all
yield none; write through to the local store when store_value holds and the
source is not the DB (the write is not guarded by any handler, so a failing
set_value propagates). -/
def get_hash_content (env : StorageEnv) (store : Store) (content_hash : String)
    (engine : ItemType) (use_network use_ipfs store_value : Bool) :
    Except StorageError (RawContent × Store) :=
  let c0 := get_value store content_hash
  let step1 : Except StorageError (Option (List Nat) × Option ContentSource) :=
    match c0 with
    | some c => Except.ok (some c, some ContentSource.DB)
    | none =>
        if use_network then
          match fetch_content_from_network env content_hash engine with
          | Except.error e => Except.error e
          | Except.ok c => Except.ok (c, some ContentSource.P2P)
        else Except.ok (none, none)
  match step1 with
  | Except.error e => Except.error e
  | Except.ok (c1, s1) =>
      let step2 : Option (List Nat) × Option ContentSource :=
        match c1 with
        | some c => (some c, s1)
        | none =>
            if env.ipfsEnabled && engine == ItemType.IPFS && use_ipfs then
              (env.ipfsGet content_hash, some ContentSource.IPFS)
            else (none, s1)
      match step2 with
      | (none, _) => Except.error StorageError.contentCurrentlyUnavailable
      | (some content, s2) =>
          if store_value && s2 ≠ some ContentSource.DB then
            if env.setValueOk then
              Except.ok (RawContent.mk content_hash s2 content,
                         set_value store content_hash content)
            else Except.error StorageError.storeWriteError
          else Except.ok (RawContent.mk content_hash s2 content, store)

/-! Embedding of aleph/network.py.  A message is a Python dict of JSON-ish
values; Val covers the shapes the validator distinguishes: strings, numbers,
None, the ItemType enum values the code itself writes into the dict, and an
opaque constructor for every other value. -/

inductive Val where
  | vStr (s : String)
  | vNum (n : Int)
  | vNone
  | vItemType (t : ItemType)
  | vOther
deriving DecidableEq, Repr

/-- Python isinstance(v, str). -/
def Val.isStr : Val → Bool
  | Val.vStr _ => true
  | _ => false

/-- A message dict: association list from field name to value. -/
def Msg := List (String × Val)

instance : DecidableEq Msg := by
  unfold Msg
  infer_instance

/-- Dict read access: message.get(k) or message[k] when the key is present. -/
def lookupField (m : Msg) (k : String) : Option Val :=
  match m with
  | [] => none
  | (k0, v0) :: rest => if k0 = k then some v0 else lookupField rest k

/-- Dict write access message[k] = v: overwrite in place or append. -/
def setField (m : Msg) (k : String) (v : Val) : Msg :=
  match m with
  | [] => [(k, v)]
  | (k0, v0) :: rest =>
      if k0 = k then (k, v) :: rest else (k0, v0) :: setField rest k v

/-- MAX_INLINE_SIZE, network.py line 14. -/
def MAX_INLINE_SIZE : Nat := 200000

/-- INCOMING_MESSAGE_AUTHORIZED_FIELDS, network.py lines 16-26. -/
def INCOMING_MESSAGE_AUTHORIZED_FIELDS : List String :=
  ["item_hash", "item_content", "item_type", "chain", "channel", "sender",
   "type", "time", "signature"]

/-- The dict comprehension of network.py lines 115-117: keep only authorized
fields. -/
def projectMsg (m : Msg) : Msg :=
  List.filter (fun kv => decide (kv.1 ∈ INCOMING_MESSAGE_AUTHORIZED_FIELDS)) m

/-- Outcome of awaiting a chain verifier: a boolean result, a ValueError
(caught by check_message), or any other exception (which propagates). -/
inductive SigOutcome where
  | result (b : Bool)
  | valueError
  | otherError

/-- Exceptions that can escape or be raised inside check_message: KeyError
from a missing required field, TypeError from len() on a non-string, and an
uncaught exception out of a signature verifier. -/
inductive PyError where
  | keyError (field : String)
  | typeError
  | uncaughtSignerError
deriving DecidableEq, Repr

/-- Environment of the validator: the sha256 routine over the item_content
string (aleph/utils.py get_sha256, outside the slice, kept abstract), the
length-based classifier ItemType.from_hash (none models its ValueError), and
the VERIFIER_REGISTER keyed by chain name. -/
structure CheckEnv where
  sha256str : String → String
  fromHash : String → Option ItemType
  verifiers : String → Option (Msg → SigOutcome)

/-- Python message.get("channel", None) is not None: the key is present with a
value other than None. -/
def fieldPresent (m : Msg) (k : String) : Bool :=
  match lookupField m k with
  | some v => v != Val.vNone
  | none => false

/-- The channel guard of network.py lines 69-72 fails: channel present, not
None and not a string. -/
def channelGuardFails (m : Msg) : Bool :=
  match lookupField m "channel" with
  | some v => v != Val.vNone && !v.isStr
  | none => false

/-- The four isinstance guards and the channel guard of check_message,
network.py lines 61-80.  ok false means reject (return None); a missing
required field raises KeyError because the code subscripts the dict. -/
def shapeGuards (m : Msg) : Except PyError Bool :=
  match lookupField m "item_hash" with
  | none => Except.error (PyError.keyError "item_hash")
  | some v1 =>
      if !v1.isStr then Except.ok false
      else
        match lookupField m "chain" with
        | none => Except.error (PyError.keyError "chain")
        | some v2 =>
            if !v2.isStr then Except.ok false
            else if channelGuardFails m then Except.ok false
            else
              match lookupField m "sender" with
              | none => Except.error (PyError.keyError "sender")
              | some v3 =>
                  if !v3.isStr then Except.ok false
                  else
                    match lookupField m "signature" with
                    | none => Except.error (PyError.keyError "signature")
                    | some v4 =>
                        if !v4.isStr then Except.ok false else Except.ok true

/-- The item_hash field as a string, defined when the guard passed. -/
def itemHashStr (m : Msg) : Option String :=
  match lookupField m "item_hash" with
  | some (Val.vStr s) => some s
  | _ => none

/-- Python message.get("hash_type", "sha256") == "sha256": true when the field
is absent or holds exactly the string sha256. -/
def hashTypeIsSha (m : Msg) : Bool :=
  match lookupField m "hash_type" with
  | none => true
  | some v => v == Val.vStr "sha256"

/-- The else branch of network.py lines 104-108: try to classify the hash;
a ValueError from from_hash leaves the message unchanged. -/
def classifyStep (env : CheckEnv) (m : Msg) : Msg :=
  match itemHashStr m with
  | some ih =>
      match env.fromHash ih with
      | some ty => setField m "item_type" (Val.vItemType ty)
      | none => m
  | none => m

/-- network.py lines 110-129: a trusted message is returned as mutated;
otherwise project onto the whitelist, look up the verifier for the chain
(reject when unknown), and run it: a truthy result returns the projection, a
falsy result falls off the end of the function (None), a ValueError rejects,
any other exception propagates. -/
def finalizeMsg (env : CheckEnv) (m : Msg) (trusted : Bool) :
    Except PyError (Option Msg) :=
  if trusted then Except.ok (some m)
  else
    let m2 := projectMsg m
    match lookupField m2 "chain" with
    | some (Val.vStr chainName) =>
        match env.verifiers chainName with
        | none => Except.ok none
        | some signer =>
            match signer m2 with
            | SigOutcome.result true => Except.ok (some m2)
            | SigOutcome.result false => Except.ok none
            | SigOutcome.valueError => Except.ok none
            | SigOutcome.otherError => Except.error PyError.uncaughtSignerError
    | _ => Except.ok none

/-- network.py lines 82-108, the part of check_message after the shape guards:
inline content is length-checked (len raises TypeError on a non-string),
hash-checked against item_hash unless trusted, rejected under an unknown
hash_type, and forces item_type to Inline; without inline content the message
is classified by hash. -/
def processContent (env : CheckEnv) (m : Msg) (trusted : Bool) :
    Except PyError (Option Msg) :=
  if fieldPresent m "item_content" then
    match lookupField m "item_content" with
    | some (Val.vStr content) =>
        if MAX_INLINE_SIZE < content.length then Except.ok none
        else if hashTypeIsSha m then
          if trusted = false ∧ itemHashStr m ≠ some (env.sha256str content) then
            Except.ok none
          else
            finalizeMsg env (setField m "item_type" (Val.vItemType ItemType.Inline))
              trusted
        else Except.ok none
    | _ => Except.error PyError.typeError
  else finalizeMsg env (classifyStep env m) trusted

/-- check_message, network.py lines 50-129: shape guards, then content
processing; a guard failure returns None, a missing required field raises. -/
def check_message (env : CheckEnv) (m : Msg) (trusted : Bool) :
    Except PyError (Option Msg) :=
  match shapeGuards m with
  | Except.error e => Except.error e
  | Except.ok false => Except.ok none
  | Except.ok true => processContent env m trusted

/-! Embedding of aleph/jobs.py.  The two sweep jobs iterate a time-ordered
query limited to 1000 records, append one handler task per record, and drain
(await all tasks, then flush accumulated actions) every time the counter
exceeds the batch limit, plus a final drain.  Since a coroutine only runs once
the drain gathers it, the set of tasks in flight concurrently is exactly one
batch; the model returns the list of drained batches. -/

def job_batches_go (limit : Nat) : List α → List α → Nat → List (List α)
  | [], tasks, _ => [tasks]
  | p :: rest, tasks, i =>
      let tasks2 := tasks ++ [p]
      let i2 := i + 1
      if limit < i2 then tasks2 :: job_batches_go limit rest [] 0
      else job_batches_go limit rest tasks2 i2

/-- The batching loop shared by retry_messages_job (limit 200) and
handle_txs_job (limit 100): counter and task list start at zero/empty. -/
def job_batches (limit : Nat) (pending : List α) : List (List α) :=
  job_batches_go limit pending [] 0

/-- retry_messages_job, jobs.py lines 39-59, seen through its batching
behaviour: at most 1000 records per sweep, drained whenever i exceeds 200. -/
def retry_messages_job (pending : List α) : List (List α) :=
  job_batches 200 (pending.take 1000)

/-- handle_txs_job, jobs.py lines 110-125: at most 1000 records per sweep,
drained whenever i exceeds 100. -/
def handle_txs_job (pending : List α) : List (List α) :=
  job_batches 100 (pending.take 1000)

/-- The context of a pending transaction, jobs.py lines 77-87. -/
structure TxContext where
  chain_name : String
  tx_hash : String
  height : Nat
  time : Int
deriving DecidableEq, Repr

/-- A pending-tx record: id, opaque chain-data content, context. -/
structure PendingTx where
  tx_id : Nat
  content : Val
  context : TxContext

/-- Result of the external extractor get_chaindata_messages: a list of
messages, some other non-None value (bogus data, handled sentinel), or None. -/
inductive ChaindataResult where
  | msgs (l : List Msg)
  | sentinel
  | nothing

/-- The source dict written into each pending-message insert,
jobs.py lines 82-87. -/
structure MessageSource where
  chain_name : String
  tx_hash : String
  height : Nat
  check_message_flag : Bool
deriving DecidableEq, Repr

/-- One InsertOne into the pending-message collection. -/
structure PendingMessageInsert where
  message : Msg
  source : MessageSource
deriving DecidableEq

/-- Persistent mutations produced by handling one pending tx: inserts into the
pending-message queue and DeleteOne ids appended to the actions list. -/
structure TxEffects where
  inserts : List PendingMessageInsert
  deletes : List Nat
deriving DecidableEq

/-- handle_pending_tx, jobs.py lines 72-95: when the extractor returns a list,
each message gets its time overwritten with the context time and is inserted
with the context-derived source dict and check_message = True, and the tx is
deleted; any other non-None return only deletes the tx; None does nothing. -/
def handle_pending_tx (gcm : Val → TxContext → ChaindataResult)
    (pending : PendingTx) : TxEffects :=
  match gcm pending.content pending.context with
  | ChaindataResult.msgs l =>
      { inserts := l.map (fun message =>
          { message := setField message "time" (Val.vNum pending.context.time)
            source :=
              { chain_name := pending.context.chain_name
                tx_hash := pending.context.tx_hash
                height := pending.context.height
                check_message_flag := true } })
        deletes := [pending.tx_id] }
  | ChaindataResult.sentinel => { inserts := [], deletes := [pending.tx_id] }
  | ChaindataResult.nothing => { inserts := [], deletes := [] }

/-- A pending-message record, jobs.py lines 12-24: the source sub-dict is read
with .get, so every field of it is optional. -/
structure PendingMessageRec where
  pm_id : Nat
  message : Msg
  source_chain_name : Option String
  source_tx_hash : Option String
  source_height : Option Nat
  source_check_message : Option Bool

/-- The seen_ids dict initialized at the top of retry_messages_job,
jobs.py lines 43-47. -/
def seen_ids_init : List (String × List Nat) :=
  [("NULS", []), ("ETH", []), ("BNB", [])]

/-- Python dict subscription seen_ids[k] where k may be None: any key that is
absent (None always is, since the keys are strings) raises KeyError. -/
def seenIdsLookup (d : List (String × List Nat)) (k : Option String) :
    Option (List Nat) :=
  match k with
  | none => none
  | some key =>
      match d with
      | [] => none
      | (k0, ids) :: rest =>
          if k0 = key then some ids else seenIdsLookup rest (some key)

/-- Errors escaping a pending-message handler task. -/
inductive JobError where
  | keyError
deriving DecidableEq, Repr

/-- handle_pending_message, jobs.py lines 12-24: subscript seen_ids with the
record's chain name (evaluated before incoming is awaited, so an unknown or
missing chain name raises KeyError and the record is not processed); when
incoming returns True, append a DeleteOne for the record id. -/
def handle_pending_message
    (incoming : Msg → Option String → Option String → Option Nat →
      List Nat → Bool → Bool)
    (pending : PendingMessageRec) (seen_ids : List (String × List Nat)) :
    Except JobError (List Nat) :=
  match seenIdsLookup seen_ids pending.source_chain_name with
  | none => Except.error JobError.keyError
  | some ids =>
      if incoming pending.message pending.source_chain_name
          pending.source_tx_hash pending.source_height ids
          (pending.source_check_message.getD true) then
        Except.ok [pending.pm_id]
      else Except.ok []

/-- Delete actions a handler task contributes to the bulk write flushed by
join_pending_message_tasks, jobs.py lines 27-36: a task that raised appended
nothing, and its exception is caught and logged at drain time. -/
def pm_deletes (r : Except JobError (List Nat)) : List Nat :=
  match r with
  | Except.ok l => l
  | Except.error _ => []

/-! Concrete environments used by witnesses and counterexamples. -/

/-- A storage environment whose network adapters all miss and whose IPFS
adapter serves the bytes 1,2,3 under the hash QmX, while every recomputed hash
is the string BAD: verification would fail on those bytes. -/
def envIpfsBad : StorageEnv :=
  { p2pClients := []
    streamer := fun _ => none
    httpFetch := fun _ => none
    ipfsGet := fun h => if h == "QmX" then some [1, 2, 3] else none
    ipfsEnabled := true
    ipfsAddBytes := fun _ _ => some "BAD"
    sha256bytes := fun _ => "BAD"
    setValueOk := true }

/-- Same as envIpfsBad but with a local store that rejects writes. -/
def envIpfsStoreFails : StorageEnv :=
  { envIpfsBad with setValueOk := false }

/-- A storage environment whose protocol streamer serves the bytes 7 under the
hash H7, with a sha256 oracle that maps exactly those bytes to H7, and whose
local store rejects writes. -/
def envStoreFails : StorageEnv :=
  { p2pClients := ["protocol"]
    streamer := fun h => if h == "H7" then some [7] else none
    httpFetch := fun _ => none
    ipfsGet := fun _ => none
    ipfsEnabled := false
    ipfsAddBytes := fun _ _ => none
    sha256bytes := fun b => if b == [7] then "H7" else "OTHER"
    setValueOk := false }

/-- Same as envStoreFails but with a working local store. -/
def envStoreOk : StorageEnv :=
  { envStoreFails with setValueOk := true }

/-- A validator environment: sha256 tagged oracle, no classifier, one chain X
whose verifier accepts everything. -/
def envCheck : CheckEnv :=
  { sha256str := fun s => String.append "sha-" s
    fromHash := fun _ => none
    verifiers := fun c =>
      if c = "X" then some (fun _ => SigOutcome.result true) else none }

theorem get_value_set_value_same (store : Store) (h : String) (v : List Nat) :
    get_value (set_value store h v) h = some v := by
  induction store with
  | nil => simp [get_value, set_value]
  | cons kv rest ih =>
      obtain ⟨k, w⟩ := kv
      by_cases hk : k = h
      · simp [get_value, set_value, hk]
      · simp [get_value, set_value, hk, ih]

theorem ghc_db_hit (env : StorageEnv) (store : Store) (h : String) (c : List Nat)
    (engine : ItemType) (un ui sv : Bool) (hget : get_value store h = some c) :
    get_hash_content env store h engine un ui sv =
      Except.ok (RawContent.mk h (some ContentSource.DB) c, store) := by
  simp [get_hash_content, hget]

theorem ghc_p2p_hit (env : StorageEnv) (store : Store) (h : String)
    (engine : ItemType) (ui sv : Bool) (c : List Nat)
    (hget : get_value store h = none)
    (hfetch : fetch_content_from_network env h engine = Except.ok (some c))
    (hsv : env.setValueOk = true) :
    get_hash_content env store h engine true ui sv =
      Except.ok (RawContent.mk h (some ContentSource.P2P) c,
        if sv then set_value store h c else store) := by
  cases sv <;> simp [get_hash_content, hget, hfetch, hsv]

theorem ghc_ipfs_hit (env : StorageEnv) (store : Store) (h : String)
    (sv : Bool) (c : List Nat)
    (hget : get_value store h = none)
    (hfetch : fetch_content_from_network env h ItemType.IPFS = Except.ok none)
    (hipfs : env.ipfsEnabled = true)
    (hc : env.ipfsGet h = some c)
    (hsv : env.setValueOk = true) :
    get_hash_content env store h ItemType.IPFS true true sv =
      Except.ok (RawContent.mk h (some ContentSource.IPFS) c,
        if sv then set_value store h c else store) := by
  cases sv <;> simp [get_hash_content, hget, hfetch, hipfs, hc, hsv]

/-- Claim C5: get_hash_content resolves local store, then peer overlay, then
distributed network, stopping at the first non-null result: a DB hit yields
source DB with no dependence on any network adapter (the equation holds for
every environment); a DB miss with overlay bytes yields source P2P; a miss of
both with IPFS bytes yields source IPFS; and when every source yields none it
fails with ContentCurrentlyUnavailable. -/
theorem c5_resolver_source_ordering (env : StorageEnv) (store : Store)
    (h : String) (engine : ItemType) (un ui sv : Bool) :
    (∀ c, get_value store h = some c →
        get_hash_content env store h engine un ui sv =
          Except.ok (RawContent.mk h (some ContentSource.DB) c, store)) ∧
    (∀ c, get_value store h = none →
        fetch_content_from_network env h engine = Except.ok (some c) →
        env.setValueOk = true →
        get_hash_content env store h engine true ui sv =
          Except.ok (RawContent.mk h (some ContentSource.P2P) c,
            if sv then set_value store h c else store)) ∧
    (∀ c, get_value store h = none →
        fetch_content_from_network env h ItemType.IPFS = Except.ok none →
        env.ipfsEnabled = true → env.ipfsGet h = some c →
        env.setValueOk = true →
        get_hash_content env store h ItemType.IPFS true true sv =
          Except.ok (RawContent.mk h (some ContentSource.IPFS) c,
            if sv then set_value store h c else store)) ∧
    (get_value store h = none →
        fetch_content_from_network env h ItemType.IPFS = Except.ok none →
        env.ipfsGet h = none →
        get_hash_content env store h ItemType.IPFS true true sv =
          Except.error StorageError.contentCurrentlyUnavailable) := by
  refine ⟨fun c hget => ghc_db_hit env store h c engine un ui sv hget,
          fun c hget hfetch hsv => ghc_p2p_hit env store h engine ui sv c hget hfetch hsv,
          fun c hget hfetch hipfs hc hsv => ghc_ipfs_hit env store h sv c hget hfetch hipfs hc hsv,
          fun hget hfetch hc => ?_⟩
  cases hen : env.ipfsEnabled <;> simp [get_hash_content, hget, hfetch, hc, hen]

/-- Witness for C5: one concrete instance per conjunct, over the concrete
environments envStoreOk and envIpfsBad. -/
theorem c5_resolver_source_ordering_witness :
    get_hash_content envStoreOk [("H7", [9])] "H7" ItemType.Storage true true true =
      Except.ok (RawContent.mk "H7" (some ContentSource.DB) [9], [("H7", [9])]) ∧
    get_hash_content envStoreOk [] "H7" ItemType.Storage true true true =
      Except.ok (RawContent.mk "H7" (some ContentSource.P2P) [7], [("H7", [7])]) ∧
    get_hash_content envIpfsBad [] "QmX" ItemType.IPFS true true false =
      Except.ok (RawContent.mk "QmX" (some ContentSource.IPFS) [1, 2, 3], []) ∧
    get_hash_content envStoreOk [] "NOPE" ItemType.IPFS true true true =
      Except.error StorageError.contentCurrentlyUnavailable := by
  refine ⟨?_, ?_, ?_, ?_⟩
  · exact (c5_resolver_source_ordering envStoreOk [("H7", [9])] "H7"
      ItemType.Storage true true true).1 [9] rfl
  · simpa using (c5_resolver_source_ordering envStoreOk [] "H7"
      ItemType.Storage true true true).2.1 [7] rfl rfl rfl
  · simpa using (c5_resolver_source_ordering envIpfsBad [] "QmX"
      ItemType.IPFS true true false).2.2.1 [1, 2, 3] rfl rfl rfl rfl rfl
  · exact (c5_resolver_source_ordering envStoreOk [] "NOPE"
      ItemType.IPFS true true true).2.2.2 rfl rfl rfl

/-- Counterexample to claim C1 as stated: the resolver returns and caches the
bytes served by the IPFS adapter even though they fail verify_content_hash, so
IPFS-sourced bytes are not verified before being cached or returned. -/
theorem c1_counterexample :
    get_hash_content envIpfsBad [] "QmX" ItemType.IPFS true true true =
      Except.ok (RawContent.mk "QmX" (some ContentSource.IPFS) [1, 2, 3],
        [("QmX", [1, 2, 3])]) ∧
    verify_content_hash envIpfsBad [1, 2, 3] ItemType.IPFS "QmX" =
      Except.error StorageError.invalidContent :=
  ⟨rfl, rfl⟩

/-- Claim C1 (amended): bytes obtained from the peer overlay are verified via
verify_content_hash before get_hash_content caches or returns them, but bytes
fetched from the distributed network (source IPFS) are cached and returned
without any verify_content_hash call: the conclusion of the second conjunct
holds with no hypothesis relating the bytes to the hash. -/
theorem c1_network_bytes_verified :
    (∀ (env : StorageEnv) (h : String) (engine : ItemType) (c : List Nat),
        fetch_content_from_network env h engine = Except.ok (some c) →
        verify_content_hash env c engine h = Except.ok ()) ∧
    (∀ (env : StorageEnv) (store : Store) (h : String) (c : List Nat),
        get_value store h = none →
        fetch_content_from_network env h ItemType.IPFS = Except.ok none →
        env.ipfsEnabled = true → env.ipfsGet h = some c →
        env.setValueOk = true →
        get_hash_content env store h ItemType.IPFS true true true =
          Except.ok (RawContent.mk h (some ContentSource.IPFS) c,
            set_value store h c)) := by
  constructor
  · intro env h engine c hfetch
    simp only [fetch_content_from_network] at hfetch
    split at hfetch
    · simp at hfetch
    · rename_i heq
      split at hfetch
      · simp at hfetch
      · rename_i u hv
        simp only [Except.ok.injEq, Option.some.injEq] at hfetch
        subst hfetch
        cases u
        exact hv
  · intro env store h c hget hfetch hipfs hc hsv
    simpa using ghc_ipfs_hit env store h true c hget hfetch hipfs hc hsv

/-- Witness for the amended C1: the overlay bytes accepted in envStoreOk do
verify, and envIpfsBad returns unverifiable IPFS bytes. -/
theorem c1_network_bytes_verified_witness :
    verify_content_hash envStoreOk [7] ItemType.Storage "H7" = Except.ok () ∧
    get_hash_content envIpfsBad [] "QmX" ItemType.IPFS true true true =
      Except.ok (RawContent.mk "QmX" (some ContentSource.IPFS) [1, 2, 3],
        set_value [] "QmX" [1, 2, 3]) :=
  ⟨c1_network_bytes_verified.1 envStoreOk "H7" ItemType.Storage [7] rfl,
   c1_network_bytes_verified.2 envIpfsBad [] "QmX" [1, 2, 3] rfl rfl rfl rfl rfl⟩

/-- Counterexample to claim C3 as stated: with a store whose write fails, a
resolve that obtained verified bytes from the overlay raises instead of
returning the bytes, because the set_value call is not guarded. -/
theorem c3_counterexample :
    get_hash_content envStoreFails [] "H7" ItemType.Storage true true true =
      Except.error StorageError.storeWriteError :=
  rfl

/-- Claim C3 (amended): when store_value holds and the source is not the DB —
whether the bytes came from the peer overlay or from the distributed network —
a failure of the write-through set_value propagates out of get_hash_content
and the resolve fails; the bytes are not returned to the caller. -/
theorem c3_store_write_failure_propagates (env : StorageEnv) (store : Store)
    (h : String) (engine : ItemType) (ui : Bool) (c : List Nat) :
    (get_value store h = none →
      fetch_content_from_network env h engine = Except.ok (some c) →
      env.setValueOk = false →
      get_hash_content env store h engine true ui true =
        Except.error StorageError.storeWriteError) ∧
    (get_value store h = none →
      fetch_content_from_network env h ItemType.IPFS = Except.ok none →
      env.ipfsEnabled = true → env.ipfsGet h = some c →
      env.setValueOk = false →
      get_hash_content env store h ItemType.IPFS true true true =
        Except.error StorageError.storeWriteError) := by
  constructor
  · intro hget hfetch hsv
    simp [get_hash_content, hget, hfetch, hsv]
  · intro hget hfetch hipfs hc hsv
    simp [get_hash_content, hget, hfetch, hipfs, hc, hsv]

/-- Witness for the amended C3: a P2P-sourced resolve and an IPFS-sourced
resolve each fail with storeWriteError at concrete failing-store
environments. -/
theorem c3_store_write_failure_propagates_witness :
    get_hash_content envStoreFails [] "H7" ItemType.Storage true true true =
      Except.error StorageError.storeWriteError ∧
    get_hash_content envIpfsStoreFails [] "QmX" ItemType.IPFS true true true =
      Except.error StorageError.storeWriteError :=
  ⟨(c3_store_write_failure_propagates envStoreFails [] "H7" ItemType.Storage
      true [7]).1 rfl rfl rfl,
   (c3_store_write_failure_propagates envIpfsStoreFails [] "QmX" ItemType.IPFS
      true [1, 2, 3]).2 rfl rfl rfl rfl rfl⟩

theorem ghc_ok_store (env : StorageEnv) (store : Store) (ch : String)
    (engine : ItemType) (un ui : Bool) (rc : RawContent) (st2 : Store)
    (h : get_hash_content env store ch engine un ui true = Except.ok (rc, st2)) :
    rc.hash = ch ∧
      ((rc.source = some ContentSource.DB ∧ st2 = store) ∨
       (rc.source ≠ some ContentSource.DB ∧
        st2 = set_value store ch rc.value)) := by
  rcases hc0 : get_value store ch with _ | c
  · cases un
    · cases hcond : (env.ipfsEnabled && (engine == ItemType.IPFS) && ui)
      · simp [get_hash_content, hc0, hcond] at h
      · rcases hig : env.ipfsGet ch with _ | c
        · simp [get_hash_content, hc0, hcond, hig] at h
        · cases hsv : env.setValueOk
          · simp [get_hash_content, hc0, hcond, hig, hsv] at h
          · simp [get_hash_content, hc0, hcond, hig, hsv] at h
            obtain ⟨h1, h2⟩ := h
            subst h1
            subst h2
            exact ⟨rfl, Or.inr ⟨by simp, rfl⟩⟩
    · rcases hf : fetch_content_from_network env ch engine with e | copt
      · simp [get_hash_content, hc0, hf] at h
      · rcases copt with _ | c
        · cases hcond : (env.ipfsEnabled && (engine == ItemType.IPFS) && ui)
          · simp [get_hash_content, hc0, hf, hcond] at h
          · rcases hig : env.ipfsGet ch with _ | c
            · simp [get_hash_content, hc0, hf, hcond, hig] at h
            · cases hsv : env.setValueOk
              · simp [get_hash_content, hc0, hf, hcond, hig, hsv] at h
              · simp [get_hash_content, hc0, hf, hcond, hig, hsv] at h
                obtain ⟨h1, h2⟩ := h
                subst h1
                subst h2
                exact ⟨rfl, Or.inr ⟨by simp, rfl⟩⟩
        · cases hsv : env.setValueOk
          · simp [get_hash_content, hc0, hf, hsv] at h
          · simp [get_hash_content, hc0, hf, hsv] at h
            obtain ⟨h1, h2⟩ := h
            subst h1
            subst h2
            exact ⟨rfl, Or.inr ⟨by simp, rfl⟩⟩
  · simp [get_hash_content, hc0] at h
    obtain ⟨h1, h2⟩ := h
    subst h1
    subst h2
    exact ⟨rfl, Or.inl ⟨rfl, rfl⟩⟩

/-- Claim C7: after a successful get_hash_content with store_value = true and
a non-DB source, the bytes are in the local store under the hash, and any
subsequent get_hash_content on the resulting store (any environment, any
flags) returns the same bytes with source DB and leaves the store unchanged. -/
theorem c7_write_through (env : StorageEnv) (store : Store) (h : String)
    (engine : ItemType) (un ui : Bool) (rc : RawContent) (st2 : Store)
    (hok : get_hash_content env store h engine un ui true = Except.ok (rc, st2))
    (hnd : rc.source ≠ some ContentSource.DB) :
    get_value st2 h = some rc.value ∧
    ∀ (env2 : StorageEnv) (engine2 : ItemType) (un2 ui2 sv2 : Bool),
      get_hash_content env2 st2 h engine2 un2 ui2 sv2 =
        Except.ok (RawContent.mk h (some ContentSource.DB) rc.value, st2) := by
  obtain ⟨hhash, hcases⟩ := ghc_ok_store env store h engine un ui rc st2 hok
  rcases hcases with ⟨hdb, _⟩ | ⟨_, hst⟩
  · exact absurd hdb hnd
  · subst hst
    have hget := get_value_set_value_same store h rc.value
    exact ⟨hget, fun env2 engine2 un2 ui2 sv2 =>
      ghc_db_hit env2 (set_value store h rc.value) h rc.value engine2 un2 ui2
        sv2 hget⟩

/-- Witness for C7: the concrete P2P resolve of envStoreOk caches the bytes,
and the follow-up resolve hits the DB. -/
theorem c7_write_through_witness :
    get_value [("H7", [7])] "H7" = some [7] ∧
    get_hash_content envStoreOk [("H7", [7])] "H7" ItemType.Storage true true
        true =
      Except.ok (RawContent.mk "H7" (some ContentSource.DB) [7],
        [("H7", [7])]) := by
  have H := c7_write_through envStoreOk [] "H7" ItemType.Storage true true
    (RawContent.mk "H7" (some ContentSource.P2P) [7]) [("H7", [7])] rfl
    (by simp)
  exact ⟨H.1, H.2 envStoreOk ItemType.Storage true true true⟩

theorem lookupField_setField_same (m : Msg) (k : String) (v : Val) :
    lookupField (setField m k v) k = some v := by
  induction m with
  | nil => simp [lookupField, setField]
  | cons kv rest ih =>
      obtain ⟨k0, v0⟩ := kv
      by_cases hk : k0 = k
      · simp [lookupField, setField, hk]
      · simp [lookupField, setField, hk, ih]

theorem lookupField_setField_ne (m : Msg) (k : String) (v : Val) (k2 : String)
    (h : k2 ≠ k) :
    lookupField (setField m k v) k2 = lookupField m k2 := by
  induction m with
  | nil => simp [lookupField, setField, Ne.symm h]
  | cons kv rest ih =>
      obtain ⟨k0, v0⟩ := kv
      by_cases hk : k0 = k
      · subst hk
        simp [lookupField, setField, Ne.symm h]
      · by_cases hk2 : k0 = k2
        · subst hk2
          simp [lookupField, setField, hk]
        · simp [lookupField, setField, hk, hk2, ih]

theorem lookupField_projectMsg (m : Msg) (k : String) :
    lookupField (projectMsg m) k =
      if k ∈ INCOMING_MESSAGE_AUTHORIZED_FIELDS then lookupField m k
      else none := by
  induction m with
  | nil => simp [lookupField, projectMsg]
  | cons kv rest ih =>
      obtain ⟨k0, v0⟩ := kv
      simp only [projectMsg] at ih ⊢
      by_cases hc : k0 ∈ INCOMING_MESSAGE_AUTHORIZED_FIELDS
      · by_cases hkk : k0 = k
        · subst hkk
          simp [lookupField, List.filter, hc]
        · simp [lookupField, List.filter, hc, hkk, ih]
      · by_cases hkk : k0 = k
        · subst hkk
          simp [lookupField, List.filter, hc, ih]
        · simp [lookupField, List.filter, hc, hkk, ih]

theorem finalizeMsg_ok_some (env : CheckEnv) (m : Msg) (t : Bool) (m2 : Msg)
    (h : finalizeMsg env m t = Except.ok (some m2)) :
    m2 = if t then m else projectMsg m := by
  cases t
  · simp only [finalizeMsg, Bool.false_eq_true, if_false] at h
    split at h
    · split at h
      · simp at h
      · split at h
        · simp only [Except.ok.injEq, Option.some.injEq] at h
          simp [h.symm]
        · simp at h
        · simp at h
        · simp at h
    · simp at h
  · simp only [finalizeMsg, if_true] at h
    simp only [Except.ok.injEq, Option.some.injEq] at h
    simp [h.symm]

theorem check_message_ok_some (env : CheckEnv) (m : Msg) (t : Bool) (m2 : Msg)
    (h : check_message env m t = Except.ok (some m2)) :
    ∃ m1, (m1 = m ∨ ∃ ty, m1 = setField m "item_type" (Val.vItemType ty)) ∧
      m2 = if t then m1 else projectMsg m1 := by
  rcases hg : shapeGuards m with e | b
  · simp [check_message, hg] at h
  · cases b
    · simp [check_message, hg] at h
    · simp only [check_message, hg] at h
      by_cases hpres : fieldPresent m "item_content"
      · rcases hic : lookupField m "item_content" with _ | v
        · simp [fieldPresent, hic] at hpres
        · cases v with
          | vStr content =>
              simp only [processContent, hpres, if_true, hic] at h
              split at h
              · simp at h
              · split at h
                · split at h
                  · simp at h
                  · exact ⟨setField m "item_type" (Val.vItemType ItemType.Inline),
                      Or.inr ⟨ItemType.Inline, rfl⟩,
                      finalizeMsg_ok_some env _ t m2 h⟩
                · simp at h
          | vNum n =>
              simp [processContent, hpres, hic] at h
          | vNone => simp [fieldPresent, hic] at hpres
          | vItemType ty =>
              simp [processContent, hpres, hic] at h
          | vOther =>
              simp [processContent, hpres, hic] at h
      · simp only [processContent, hpres, if_false, Bool.false_eq_true] at h
        refine ⟨classifyStep env m, ?_, finalizeMsg_ok_some env _ t m2 h⟩
        rcases hih : itemHashStr m with _ | s
        · exact Or.inl (by simp [classifyStep, hih])
        · rcases hty : env.fromHash s with _ | ty
          · exact Or.inl (by simp [classifyStep, hih, hty])
          · exact Or.inr ⟨ty, by simp [classifyStep, hih, hty]⟩

/-- Counterexample to claim C2 as stated: check_message subscripts the dict
for item_hash, chain, sender and signature, so a mapping without item_hash is
rejected by a KeyError, not by a null result. -/
theorem c2_counterexample :
    check_message envCheck [] false =
      Except.error (PyError.keyError "item_hash") :=
  rfl

/-- Claim C2 (amended): the type guards reject with a null result whenever the
guarded field is present with a non-string value (and channel present with a
non-None non-string value), but a required field that is absent from the
mapping raises a KeyError instead of yielding null. -/
theorem c2_guard_null_or_keyerror (env : CheckEnv) (m : Msg) (t : Bool) :
    (lookupField m "item_hash" = none →
      check_message env m t = Except.error (PyError.keyError "item_hash")) ∧
    (∀ v1, lookupField m "item_hash" = some v1 → v1.isStr = false →
      check_message env m t = Except.ok none) ∧
    (∀ v1, lookupField m "item_hash" = some v1 → v1.isStr = true →
      lookupField m "chain" = none →
      check_message env m t = Except.error (PyError.keyError "chain")) ∧
    (∀ v1 v2, lookupField m "item_hash" = some v1 → v1.isStr = true →
      lookupField m "chain" = some v2 → v2.isStr = false →
      check_message env m t = Except.ok none) ∧
    (∀ v1 v2, lookupField m "item_hash" = some v1 → v1.isStr = true →
      lookupField m "chain" = some v2 → v2.isStr = true →
      channelGuardFails m = true →
      check_message env m t = Except.ok none) ∧
    (∀ v1 v2, lookupField m "item_hash" = some v1 → v1.isStr = true →
      lookupField m "chain" = some v2 → v2.isStr = true →
      channelGuardFails m = false →
      lookupField m "sender" = none →
      check_message env m t = Except.error (PyError.keyError "sender")) ∧
    (∀ v1 v2 v3, lookupField m "item_hash" = some v1 → v1.isStr = true →
      lookupField m "chain" = some v2 → v2.isStr = true →
      channelGuardFails m = false →
      lookupField m "sender" = some v3 → v3.isStr = false →
      check_message env m t = Except.ok none) ∧
    (∀ v1 v2 v3, lookupField m "item_hash" = some v1 → v1.isStr = true →
      lookupField m "chain" = some v2 → v2.isStr = true →
      channelGuardFails m = false →
      lookupField m "sender" = some v3 → v3.isStr = true →
      lookupField m "signature" = none →
      check_message env m t = Except.error (PyError.keyError "signature")) ∧
    (∀ v1 v2 v3 v4, lookupField m "item_hash" = some v1 → v1.isStr = true →
      lookupField m "chain" = some v2 → v2.isStr = true →
      channelGuardFails m = false →
      lookupField m "sender" = some v3 → v3.isStr = true →
      lookupField m "signature" = some v4 → v4.isStr = false →
      check_message env m t = Except.ok none) := by
  refine ⟨?_, ?_, ?_, ?_, ?_, ?_, ?_, ?_, ?_⟩
  · intro h1
    simp [check_message, shapeGuards, h1]
  · intro v1 h1 hs1
    simp [check_message, shapeGuards, h1, hs1]
  · intro v1 h1 hs1 h2
    simp [check_message, shapeGuards, h1, hs1, h2]
  · intro v1 v2 h1 hs1 h2 hs2
    simp [check_message, shapeGuards, h1, hs1, h2, hs2]
  · intro v1 v2 h1 hs1 h2 hs2 hch
    simp [check_message, shapeGuards, h1, hs1, h2, hs2, hch]
  · intro v1 v2 h1 hs1 h2 hs2 hch h3
    simp [check_message, shapeGuards, h1, hs1, h2, hs2, hch, h3]
  · intro v1 v2 v3 h1 hs1 h2 hs2 hch h3 hs3
    simp [check_message, shapeGuards, h1, hs1, h2, hs2, hch, h3, hs3]
  · intro v1 v2 v3 h1 hs1 h2 hs2 hch h3 hs3 h4
    simp [check_message, shapeGuards, h1, hs1, h2, hs2, hch, h3, hs3, h4]
  · intro v1 v2 v3 v4 h1 hs1 h2 hs2 hch h3 hs3 h4 hs4
    simp [check_message, shapeGuards, h1, hs1, h2, hs2, hch, h3, hs3, h4, hs4]

/-- Witness for the amended C2: a non-string item_hash yields null, a missing
chain raises, and a non-string signature yields null. -/
theorem c2_guard_null_or_keyerror_witness :
    check_message envCheck [("item_hash", Val.vNum 3)] false = Except.ok none ∧
    check_message envCheck [("item_hash", Val.vStr "h")] false =
      Except.error (PyError.keyError "chain") ∧
    check_message envCheck
      [("item_hash", Val.vStr "h"), ("chain", Val.vStr "X"),
       ("sender", Val.vStr "s"), ("signature", Val.vNum 0)] false =
      Except.ok none := by
  refine ⟨?_, ?_, ?_⟩
  · exact (c2_guard_null_or_keyerror envCheck
      [("item_hash", Val.vNum 3)] false).2.1 (Val.vNum 3) rfl rfl
  · exact (c2_guard_null_or_keyerror envCheck
      [("item_hash", Val.vStr "h")] false).2.2.1 (Val.vStr "h") rfl rfl rfl
  · exact (c2_guard_null_or_keyerror envCheck
      [("item_hash", Val.vStr "h"), ("chain", Val.vStr "X"),
       ("sender", Val.vStr "s"), ("signature", Val.vNum 0)]
      false).2.2.2.2.2.2.2.2 (Val.vStr "h") (Val.vStr "X") (Val.vStr "s")
      (Val.vNum 0) rfl rfl rfl rfl rfl rfl rfl rfl rfl

/-- Claim C6: for an untrusted message that passes the shape guards and
carries string inline content, oversize content is rejected with null, a
sha256 mismatch under an absent or sha256 hash_type is rejected with null, an
unknown hash_type is rejected with null, and any accepted result carries
item_type = Inline. -/
theorem c6_inline_content_checks (env : CheckEnv) (m : Msg) (content : String)
    (hg : shapeGuards m = Except.ok true)
    (hic : lookupField m "item_content" = some (Val.vStr content)) :
    (MAX_INLINE_SIZE < content.length →
        check_message env m false = Except.ok none) ∧
    (content.length ≤ MAX_INLINE_SIZE → hashTypeIsSha m = true →
        itemHashStr m ≠ some (env.sha256str content) →
        check_message env m false = Except.ok none) ∧
    (content.length ≤ MAX_INLINE_SIZE → hashTypeIsSha m = false →
        check_message env m false = Except.ok none) ∧
    (∀ m2, check_message env m false = Except.ok (some m2) →
        lookupField m2 "item_type" = some (Val.vItemType ItemType.Inline)) := by
  have hpres : fieldPresent m "item_content" = true := by
    simp [fieldPresent, hic]
  refine ⟨?_, ?_, ?_, ?_⟩
  · intro hlen
    simp [check_message, hg, processContent, hpres, hic, hlen]
  · intro hlen hht hmm
    simp [check_message, hg, processContent, hpres, hic, Nat.not_lt.mpr hlen,
      hht, hmm]
  · intro hlen hht
    simp [check_message, hg, processContent, hpres, hic, Nat.not_lt.mpr hlen,
      hht]
  · intro m2 hok
    simp only [check_message, hg] at hok
    simp only [processContent, hpres, if_true, hic] at hok
    by_cases hlen : MAX_INLINE_SIZE < content.length
    · simp [hlen] at hok
    · cases hht : hashTypeIsSha m
      · simp [hlen, hht] at hok
      · by_cases hmm : itemHashStr m ≠ some (env.sha256str content)
        · simp [hlen, hht, hmm] at hok
        · simp only [hlen, hht, hmm, if_false, if_true, and_false, and_true,
            not_not, false_and, not_true, eq_self_iff_true, true_and,
            if_neg, not_false_iff] at hok
          have hfin : finalizeMsg env
              (setField m "item_type" (Val.vItemType ItemType.Inline)) false =
              Except.ok (some m2) := by
            rcases hcond : (false = false ∧
                itemHashStr m ≠ some (env.sha256str content) : Prop) with _
            simpa [hcond, hmm] using hok
          have h2 := finalizeMsg_ok_some env _ false m2 hfin
          simp only [Bool.false_eq_true, if_false] at h2
          rw [h2, lookupField_projectMsg]
          rw [if_pos (by decide : ("item_type" : String) ∈
            INCOMING_MESSAGE_AUTHORIZED_FIELDS)]
          exact lookupField_setField_same m "item_type"
            (Val.vItemType ItemType.Inline)

/-- Witness for C6: concrete rejections on a hash mismatch and on an unknown
hash_type, and a concrete acceptance carrying item_type = Inline. -/
theorem c6_inline_content_checks_witness :
    check_message envCheck
      [("item_hash", Val.vStr "nope"), ("chain", Val.vStr "X"),
       ("sender", Val.vStr "s"), ("signature", Val.vStr "g"),
       ("item_content", Val.vStr "hi")] false = Except.ok none ∧
    check_message envCheck
      [("item_hash", Val.vStr "sha-hi"), ("chain", Val.vStr "X"),
       ("sender", Val.vStr "s"), ("signature", Val.vStr "g"),
       ("item_content", Val.vStr "hi"), ("hash_type", Val.vStr "md5")]
      false = Except.ok none ∧
    ∃ m2,
      check_message envCheck
        [("item_hash", Val.vStr "sha-hi"), ("chain", Val.vStr "X"),
         ("sender", Val.vStr "s"), ("signature", Val.vStr "g"),
         ("item_content", Val.vStr "hi")] false = Except.ok (some m2) ∧
      lookupField m2 "item_type" = some (Val.vItemType ItemType.Inline) := by
  refine ⟨?_, ?_, ?_⟩
  · exact (c6_inline_content_checks envCheck
      [("item_hash", Val.vStr "nope"), ("chain", Val.vStr "X"),
       ("sender", Val.vStr "s"), ("signature", Val.vStr "g"),
       ("item_content", Val.vStr "hi")] "hi" rfl rfl).2.1 (by decide) rfl
      (by decide)
  · exact (c6_inline_content_checks envCheck
      [("item_hash", Val.vStr "sha-hi"), ("chain", Val.vStr "X"),
       ("sender", Val.vStr "s"), ("signature", Val.vStr "g"),
       ("item_content", Val.vStr "hi"), ("hash_type", Val.vStr "md5")]
      "hi" rfl rfl).2.2.1 (by decide) rfl
  · exact ⟨_, rfl, (c6_inline_content_checks envCheck
      [("item_hash", Val.vStr "sha-hi"), ("chain", Val.vStr "X"),
       ("sender", Val.vStr "s"), ("signature", Val.vStr "g"),
       ("item_content", Val.vStr "hi")] "hi" rfl rfl).2.2.2 _ rfl⟩

/-- Claim C8: a field outside the authorized whitelist is absent from every
non-null untrusted result of check_message, and is preserved (with its value)
in every non-null trusted result. -/
theorem c8_field_whitelist (env : CheckEnv) (m : Msg) (f : String)
    (hf : f ∉ INCOMING_MESSAGE_AUTHORIZED_FIELDS) :
    (∀ m2, check_message env m false = Except.ok (some m2) →
        lookupField m2 f = none) ∧
    (∀ v m2, lookupField m f = some v →
        check_message env m true = Except.ok (some m2) →
        lookupField m2 f = some v) := by
  have hfit : f ≠ "item_type" := by
    intro hcon
    rw [hcon] at hf
    exact hf (by decide)
  constructor
  · intro m2 hok
    obtain ⟨m1, _, hm2⟩ := check_message_ok_some env m false m2 hok
    simp only [Bool.false_eq_true, if_false] at hm2
    rw [hm2, lookupField_projectMsg, if_neg hf]
  · intro v m2 hv hok
    obtain ⟨m1, hshape, hm2⟩ := check_message_ok_some env m true m2 hok
    simp only [if_true] at hm2
    rcases hshape with h1 | ⟨ty, h1⟩
    · rw [hm2, h1]
      exact hv
    · rw [hm2, h1, lookupField_setField_ne m "item_type" (Val.vItemType ty) f
        hfit]
      exact hv

/-- Witness for C8: the extraneous field evil is dropped by the untrusted path
and preserved by the trusted path on a concrete message. -/
theorem c8_field_whitelist_witness :
    (∃ m2, check_message envCheck
        [("item_hash", Val.vStr "h"), ("chain", Val.vStr "X"),
         ("sender", Val.vStr "s"), ("signature", Val.vStr "g"),
         ("evil", Val.vStr "z")] false = Except.ok (some m2) ∧
      lookupField m2 "evil" = none) ∧
    (∃ m2, check_message envCheck
        [("item_hash", Val.vStr "h"), ("chain", Val.vStr "X"),
         ("sender", Val.vStr "s"), ("signature", Val.vStr "g"),
         ("evil", Val.vStr "z")] true = Except.ok (some m2) ∧
      lookupField m2 "evil" = some (Val.vStr "z")) := by
  constructor
  · exact ⟨_, rfl, (c8_field_whitelist envCheck
      [("item_hash", Val.vStr "h"), ("chain", Val.vStr "X"),
       ("sender", Val.vStr "s"), ("signature", Val.vStr "g"),
       ("evil", Val.vStr "z")] "evil" (by decide)).1 _ rfl⟩
  · exact ⟨_, rfl, (c8_field_whitelist envCheck
      [("item_hash", Val.vStr "h"), ("chain", Val.vStr "X"),
       ("sender", Val.vStr "s"), ("signature", Val.vStr "g"),
       ("evil", Val.vStr "z")] "evil" (by decide)).2 (Val.vStr "z") _ rfl rfl⟩

set_option maxRecDepth 8000 in
set_option maxHeartbeats 2000000 in
/-- Counterexample to claim C4 as stated: with 1000 queued records the first
four drained batches of the pending-message sweep each hold 201 concurrent
handler tasks, and the pending-tx sweep drains batches of 101, because the
drain fires only once the counter strictly exceeds the limit. -/
theorem c4_counterexample :
    List.map List.length (retry_messages_job (List.replicate 1000 (0 : Nat))) =
      [201, 201, 201, 201, 196] ∧
    List.map List.length (handle_txs_job (List.replicate 1000 (0 : Nat))) =
      [101, 101, 101, 101, 101, 101, 101, 101, 101, 91] :=
  ⟨rfl, rfl⟩

theorem job_batches_go_bound (limit : Nat) (rest : List α) :
    ∀ (tasks : List α) (i : Nat), tasks.length = i → i ≤ limit →
      ∀ b ∈ job_batches_go limit rest tasks i, b.length ≤ limit + 1 := by
  induction rest with
  | nil =>
      intro tasks i hlen hle b hb
      simp only [job_batches_go, List.mem_singleton] at hb
      subst hb
      omega
  | cons p rest ih =>
      intro tasks i hlen hle b hb
      simp only [job_batches_go] at hb
      by_cases hcmp : limit < i + 1
      · rw [if_pos hcmp] at hb
        rcases List.mem_cons.mp hb with hb1 | hb2
        · subst hb1
          simp only [List.length_append, List.length_singleton, hlen]
          omega
        · exact ih [] 0 rfl (Nat.zero_le _) b hb2
      · rw [if_neg hcmp] at hb
        exact ih (tasks ++ [p]) (i + 1) (by simp [hlen])
          (Nat.not_lt.mp hcmp) b hb

/-- Claim C4 (amended): in every sweep over a queue of up to 1000 pending
records, the pending-message worker has at most 201 per-record handler tasks
in flight concurrently and the pending-tx worker at most 101: the drains at
counters 201 and 101 bound every gathered batch. -/
theorem c4_bounded_concurrency (α : Type) (pending : List α) :
    (∀ b ∈ retry_messages_job pending, b.length ≤ 201) ∧
    (∀ b ∈ handle_txs_job pending, b.length ≤ 101) :=
  ⟨fun b hb => job_batches_go_bound 200 (pending.take 1000) [] 0 rfl
      (Nat.zero_le _) b hb,
   fun b hb => job_batches_go_bound 100 (pending.take 1000) [] 0 rfl
      (Nat.zero_le _) b hb⟩

/-- Witness for the amended C4 at a concrete three-record queue. -/
theorem c4_bounded_concurrency_witness :
    ([0, 1, 2] : List Nat).length ≤ 201 ∧ ([0] : List Nat).length ≤ 101 :=
  ⟨(c4_bounded_concurrency Nat [0, 1, 2]).1 [0, 1, 2] (by decide),
   (c4_bounded_concurrency Nat [0]).2 [0] (by decide)⟩

/-- Claim C9: when the extractor returns a list of k messages, handling the
pending tx produces exactly k inserts into the pending-message queue, each
with its time overwritten by the context time and with the context-derived
source carrying check_message = true, plus exactly one delete of the tx; when
the extractor returns None, no mutations are produced. -/
theorem c9_tx_expansion (gcm : Val → TxContext → ChaindataResult)
    (pending : PendingTx) :
    (∀ l, gcm pending.content pending.context = ChaindataResult.msgs l →
      (handle_pending_tx gcm pending).inserts.length = l.length ∧
      (∀ r ∈ (handle_pending_tx gcm pending).inserts,
        r.source = MessageSource.mk pending.context.chain_name
          pending.context.tx_hash pending.context.height true ∧
        lookupField r.message "time" =
          some (Val.vNum pending.context.time)) ∧
      (handle_pending_tx gcm pending).deletes = [pending.tx_id]) ∧
    (gcm pending.content pending.context = ChaindataResult.nothing →
      handle_pending_tx gcm pending = TxEffects.mk [] []) := by
  constructor
  · intro l hl
    simp only [handle_pending_tx, hl]
    refine ⟨by simp, ?_, by simp⟩
    intro r hr
    simp only [List.mem_map] at hr
    obtain ⟨msg, _, hmsg⟩ := hr
    subst hmsg
    exact ⟨rfl, lookupField_setField_same msg "time" _⟩
  · intro hn
    simp [handle_pending_tx, hn]

/-- Witness for C9: a two-message extraction and a None extraction over the
concrete context of scenario S6. -/
theorem c9_tx_expansion_witness :
    (handle_pending_tx
      (fun _ _ => ChaindataResult.msgs [[("a", Val.vNum 1)], [("a", Val.vNum 2)]])
      (PendingTx.mk 5 Val.vNone (TxContext.mk "X" "t" 7 100))).inserts.length
      = 2 ∧
    (handle_pending_tx
      (fun _ _ => ChaindataResult.msgs [[("a", Val.vNum 1)], [("a", Val.vNum 2)]])
      (PendingTx.mk 5 Val.vNone (TxContext.mk "X" "t" 7 100))).deletes = [5] ∧
    handle_pending_tx (fun _ _ => ChaindataResult.nothing)
      (PendingTx.mk 5 Val.vNone (TxContext.mk "X" "t" 7 100)) =
      TxEffects.mk [] [] := by
  refine ⟨?_, ?_, ?_⟩
  · exact ((c9_tx_expansion
      (fun _ _ => ChaindataResult.msgs [[("a", Val.vNum 1)], [("a", Val.vNum 2)]])
      (PendingTx.mk 5 Val.vNone (TxContext.mk "X" "t" 7 100))).1
      [[("a", Val.vNum 1)], [("a", Val.vNum 2)]] rfl).1
  · exact ((c9_tx_expansion
      (fun _ _ => ChaindataResult.msgs [[("a", Val.vNum 1)], [("a", Val.vNum 2)]])
      (PendingTx.mk 5 Val.vNone (TxContext.mk "X" "t" 7 100))).1
      [[("a", Val.vNum 1)], [("a", Val.vNum 2)]] rfl).2.2
  · exact (c9_tx_expansion (fun _ _ => ChaindataResult.nothing)
      (PendingTx.mk 5 Val.vNone (TxContext.mk "X" "t" 7 100))).2 rfl

/-- Claim C10: a pending-message record whose source chain name is not one of
the pre-initialized keys NULS, ETH, BNB (a missing chain name included) makes
handle_pending_message raise a KeyError on the seen_ids dict before incoming
runs, so the drain (which catches and logs the exception) receives no delete
action for it and the record stays pending; every later sweep reinitializes
seen_ids with the same three keys, so the record stays pending forever. -/
theorem c10_unknown_chain_stays_pending
    (incoming : Msg → Option String → Option String → Option Nat →
      List Nat → Bool → Bool)
    (pending : PendingMessageRec)
    (hchain : pending.source_chain_name ∉
      [some "NULS", some "ETH", some "BNB"]) :
    handle_pending_message incoming pending seen_ids_init =
      Except.error JobError.keyError ∧
    pm_deletes (handle_pending_message incoming pending seen_ids_init) =
      [] := by
  have hlook : seenIdsLookup seen_ids_init pending.source_chain_name = none := by
    rcases hc : pending.source_chain_name with _ | key
    · rfl
    · rw [hc] at hchain
      simp only [List.mem_cons, List.mem_singleton, Option.some.injEq,
        not_or] at hchain
      obtain ⟨h1, h2, h3, -⟩ := hchain
      simp [seenIdsLookup, seen_ids_init, Ne.symm h1, Ne.symm h2, Ne.symm h3]
  constructor
  · simp [handle_pending_message, hlook]
  · simp [handle_pending_message, hlook, pm_deletes]

/-- Witness for C10: a record from an unknown chain DOT and a record with no
chain name both raise and are never deleted. -/
theorem c10_unknown_chain_stays_pending_witness :
    handle_pending_message (fun _ _ _ _ _ _ => true)
      (PendingMessageRec.mk 1 [] (some "DOT") none none none) seen_ids_init =
      Except.error JobError.keyError ∧
    handle_pending_message (fun _ _ _ _ _ _ => true)
      (PendingMessageRec.mk 2 [] none none none none) seen_ids_init =
      Except.error JobError.keyError :=
  ⟨(c10_unknown_chain_stays_pending (fun _ _ _ _ _ _ => true)
      (PendingMessageRec.mk 1 [] (some "DOT") none none none) (by decide)).1,
   (c10_unknown_chain_stays_pending (fun _ _ _ _ _ _ => true)
      (PendingMessageRec.mk 2 [] none none none none) (by decide)).1⟩
